import Mathlib

/-!
Shallow embedding of `src/lambdas/functions/ami-housekeeper/src/ami.ts`.

Conventions of the embedding:
* AWS SDK calls are mediated by an `Env` record of oracles; each embedded
  function returns its result together with the list of requests it issued.
* A rejected promise / thrown error is `Except.error`; `Promise.all` over a
  mapped list issues every request (all promises start) but its result is the
  first error in array order, modelled by `promiseAll`.
* A JS `Date` value is modelled by its `getTime` value: an integer count of
  milliseconds since the epoch.  `setDate(getDate() - d)` is modelled as
  subtracting `d * msPerDay`.
* `undefined` is `Option.none`; optional chaining `a?.b` is `Option.bind`.
-/

set_option linter.unusedVariables false

namespace AmiHousekeeper

/-- A `Filter` entry of the EC2 SDK: both fields are optional in the SDK. -/
structure Filter where
  Name : Option String
  Values : Option (List String)
  deriving DecidableEq, Repr

/-- The `Ebs` part of a block device mapping; only `SnapshotId` is read. -/
structure Ebs where
  SnapshotId : Option String
  deriving DecidableEq, Repr

/-- A block device mapping of an image; only the `Ebs` part is read. -/
structure BlockDeviceMapping where
  Ebs : Option Ebs
  deriving DecidableEq, Repr

/-- An EC2 image, restricted to the fields the code reads.  `CreationDate`
holds the parsed timestamp (milliseconds), `none` when the field is absent. -/
structure Image where
  ImageId : Option String
  CreationDate : Option Int
  BlockDeviceMappings : Option (List BlockDeviceMapping)
  deriving DecidableEq, Repr

/-- The `LaunchTemplateData` of a template version; only `ImageId` is read. -/
structure LaunchTemplateData where
  ImageId : Option String
  deriving DecidableEq, Repr

/-- A launch template version as returned by the SDK. -/
structure LaunchTemplateVersion where
  LaunchTemplateData : Option AmiHousekeeper.LaunchTemplateData
  deriving DecidableEq, Repr

/-- A launch template; only `LaunchTemplateId` is read by the code. -/
structure LaunchTemplate where
  LaunchTemplateId : Option String
  deriving DecidableEq, Repr

/-- An SSM parameter descriptor; only `Name` is read by the code. -/
structure SsmParameter where
  Name : Option String
  deriving DecidableEq, Repr

/-- `AmiCleanupOptions` of the lambda.  Note: the TypeScript interface has
exactly these four optional fields — there is no `dryRun` and no
`ssmParameterNames` field. -/
structure AmiCleanupOptions where
  minimumDaysOld : Option Int
  maxItems : Option Nat
  filters : Option (List Filter)
  launchTemplateNames : Option (List String)
  deriving DecidableEq, Repr

/-- A caller-supplied options object.  JavaScript object spread distinguishes
a field that is absent from a field that is present with value `undefined`,
so each field is doubled: outer `none` = the property is absent, `some none`
= the property is present with value `undefined`. -/
structure AmiCleanupOptionsArg where
  minimumDaysOld : Option (Option Int)
  maxItems : Option (Option Nat)
  filters : Option (Option (List Filter))
  launchTemplateNames : Option (Option (List String))
  deriving DecidableEq, Repr

/-- `defaultAmiCleanupOptions` from the source. -/
def defaultAmiCleanupOptions : AmiCleanupOptions :=
  { minimumDaysOld := some 30
    maxItems := none
    filters := some [⟨some "state", some ["available"]⟩, ⟨some "image-type", some ["machine"]⟩]
    launchTemplateNames := none }

/-- The spread merge `{ ...defaultAmiCleanupOptions, ...options }`: a property
present on `o` (even with value `undefined`) overrides the default, an absent
property keeps the default. -/
def spreadMerge (d : AmiCleanupOptions) (o : AmiCleanupOptionsArg) : AmiCleanupOptions :=
  { minimumDaysOld := o.minimumDaysOld.getD d.minimumDaysOld
    maxItems := o.maxItems.getD d.maxItems
    filters := o.filters.getD d.filters
    launchTemplateNames := o.launchTemplateNames.getD d.launchTemplateNames }

/-- The all-absent options object, i.e. `{}` (also what spreading `undefined`
amounts to). -/
def emptyOptionsArg : AmiCleanupOptionsArg := ⟨none, none, none, none⟩

/-- One request issued against AWS, with the request fields the code sets. -/
inductive AwsCall where
  | describeParameters
  | getParameter (name : Option String)
  | describeLaunchTemplates (names : Option (List String))
  | describeLaunchTemplateVersions (id : Option String)
  | describeImages (maxResults : Option Nat) (filters : Option (List Filter))
  | deregisterImage (imageId : Option String)
  | deleteSnapshot (snapshotId : String)
  deriving DecidableEq, Repr

/-- The environment: responses of the AWS endpoints.  `describeParameters`
answers the one fixed request the code makes (filter: name contains
`ami-id`); `getParameter` yields `Parameter?.Value` of the response. -/
structure Env where
  describeParameters : Except String (Option (List SsmParameter))
  getParameter : Option String → Except String (Option String)
  describeLaunchTemplates : Option (List String) → Except String (Option (List LaunchTemplate))
  describeLaunchTemplateVersions : Option String → Except String (Option (List LaunchTemplateVersion))
  describeImages : Option Nat → Option (List Filter) → Except String (Option (List Image))
  deregisterImage : Option String → Except String Unit
  deleteSnapshot : String → Except String Unit

/-- Result of `Promise.all`: all promises are created, the aggregate result is
the first rejection in array order, else the list of values. -/
def promiseAll {α : Type} : List (Except String α) → Except String (List α)
  | [] => .ok []
  | .error e :: _ => .error e
  | .ok a :: rest => (promiseAll rest).map (fun l => a :: l)

/-- `Array.prototype.flat()` on a `(string[] | undefined)[]`: array elements
are spliced in, an `undefined` element is kept as an element. -/
def flattenJs (xs : List (Option (List (Option String)))) : List (Option String) :=
  xs.flatMap fun x => match x with | some l => l | none => [none]

/-- Milliseconds in a day. -/
def msPerDay : Int := 86400000

/-- The sort comparator of `getAmisNotInUse`: difference of the timestamps
when both images carry a creation date, and `0` otherwise. -/
def imageCompare (a b : Image) : Int :=
  match a.CreationDate, b.CreationDate with
  | some x, some y => x - y
  | _, _ => 0

/-- Insert `x` into the reversed already-processed prefix, scanning from the
right end of the prefix and moving past exactly the elements the comparator
orders strictly after `x` — the behaviour of the engine's binary/linear
insertion of a short run (an element comparing `0` stops the scan). -/
def insRev (x : Image) : List Image → List Image
  | [] => [x]
  | y :: rest => if imageCompare y x > 0 then y :: insRev x rest else x :: y :: rest

/-- Insertion pass over the list, accumulating the reversed sorted prefix. -/
def sortAux : List Image → List Image → List Image
  | acc, [] => acc.reverse
  | acc, x :: xs => sortAux (insRev x acc) xs

/-- Model of `Array.prototype.sort(comparator)`: a stable comparator sort.
For a consistent comparator it returns the stable sorted permutation; for the
code's comparator (which answers `0` on any pair with a missing creation
date) it reproduces the engine's insertion behaviour. -/
def jsSort (l : List Image) : List Image := sortAux [] l

/-- `MaxResults: options.maxItems ? options.maxItems : undefined` — JS
truthiness sends `0` (and `undefined`) to `undefined`. -/
def jsTruthyNat : Option Nat → Option Nat
  | some n => if n = 0 then none else some n
  | none => none

/-- `getAmisReferedInSSM`: one `DescribeParameters` request (names containing
`ami-id`), then `Promise.all` of one `GetParameter` per returned parameter,
collecting `Parameter?.Value` of each. -/
def getAmisReferedInSSM (env : Env) : Except String (List (Option String)) × List AwsCall :=
  match env.describeParameters with
  | .error e => (.error e, [.describeParameters])
  | .ok psOpt =>
    let ps := psOpt.getD []
    (promiseAll (ps.map fun p => env.getParameter p.Name),
     .describeParameters :: ps.map fun p => .getParameter p.Name)

/-- `getAmiInLatestTemplates`: one `DescribeLaunchTemplates` request, then
`Promise.all` of one `DescribeLaunchTemplateVersions` (`$Default`) per
template, taking `LaunchTemplateData?.ImageId` of each version, flattened. -/
def getAmiInLatestTemplates (env : Env) (options : AmiCleanupOptions) :
    Except String (List (Option String)) × List AwsCall :=
  match env.describeLaunchTemplates options.launchTemplateNames with
  | .error e => (.error e, [.describeLaunchTemplates options.launchTemplateNames])
  | .ok ltsOpt =>
    let lts := ltsOpt.getD []
    let perTemplate : List (Except String (Option (List (Option String)))) :=
      lts.map fun lt =>
        (env.describeLaunchTemplateVersions lt.LaunchTemplateId).map fun vsOpt =>
          vsOpt.map fun vs => vs.map fun tv => tv.LaunchTemplateData.bind fun d => d.ImageId
    ((promiseAll perTemplate).map flattenJs,
     .describeLaunchTemplates options.launchTemplateNames ::
       lts.map fun lt => .describeLaunchTemplateVersions lt.LaunchTemplateId)

/-- The not-in-use predicate of the filter in `getAmisNotInUse`. -/
def notInUseP (amiIdsInSSM amiIdsInTemplates : List (Option String)) (image : Image) : Bool :=
  !(amiIdsInSSM.contains image.ImageId) && !(amiIdsInTemplates.contains image.ImageId)

/-- `getAmisNotInUse`: collect both reference lists, fetch the inventory,
sort it oldest first with `imageCompare`, and keep the images whose id is
`includes`-absent from both reference lists. -/
def getAmisNotInUse (env : Env) (options : AmiCleanupOptions) :
    Except String (List Image) × List AwsCall :=
  match getAmisReferedInSSM env with
  | (.error e, cs1) => (.error e, cs1)
  | (.ok amiIdsInSSM, cs1) =>
    match getAmiInLatestTemplates env options with
    | (.error e, cs2) => (.error e, cs1 ++ cs2)
    | (.ok amiIdsInTemplates, cs2) =>
      match env.describeImages (jsTruthyNat options.maxItems) options.filters with
      | .error e =>
        (.error e,
         cs1 ++ cs2 ++ [.describeImages (jsTruthyNat options.maxItems) options.filters])
      | .ok imagesOpt =>
        (.ok ((jsSort (imagesOpt.getD [])).filter (notInUseP amiIdsInSSM amiIdsInTemplates)),
         cs1 ++ cs2 ++ [.describeImages (jsTruthyNat options.maxItems) options.filters])

/-- The snapshot ids of an image: `BlockDeviceMappings`, each
`blockDeviceMapping.Ebs?.SnapshotId`, keeping the present ones. -/
def snapshotIds (amiDetails : Image) : List String :=
  (amiDetails.BlockDeviceMappings.getD []).filterMap fun b => b.Ebs.bind Ebs.SnapshotId

/-- One `DeleteSnapshotCommand` send inside its own try/catch: the error, if
any, is logged and swallowed. -/
def snapshotAttempt (env : Env) (snapshotId : String) : Except String Unit :=
  match env.deleteSnapshot snapshotId with
  | .ok _ => .ok ()
  | .error _ => .ok ()

/-- `deleteSnapshot` of the source: fires one deletion per snapshot id, each
wrapped in its own try/catch, so every id is attempted and no error escapes. -/
def deleteSnapshotRun (env : Env) (amiDetails : Image) : Except String Unit × List AwsCall :=
  ((snapshotIds amiDetails).foldl (fun acc sid => acc.bind fun _ => snapshotAttempt env sid) (.ok ()),
   (snapshotIds amiDetails).map fun sid => .deleteSnapshot sid)

/-- `deleteAmi`: skip when the creation date is absent; skip when
`creationDate > now − minimumDaysOld days`; otherwise deregister and, only on
success, delete the snapshots, the whole guarded by a try/catch.  When
`minimumDaysOld` is `undefined` the cutoff is an invalid date and the JS `>`
comparison is `false`, so the skip branch is not taken. -/
def deleteAmi (env : Env) (now : Int) (amiDetails : Image) (minimumDaysOld : Option Int) :
    Except String Unit × List AwsCall :=
  match amiDetails.CreationDate with
  | none => (.ok (), [])
  | some creationDate =>
    let tooYoung : Bool := match minimumDaysOld with
      | some d => decide (creationDate > now - d * msPerDay)
      | none => false
    if tooYoung then (.ok (), [])
    else
      match env.deregisterImage amiDetails.ImageId with
      | .error _ => (.ok (), [.deregisterImage amiDetails.ImageId])
      | .ok _ =>
        -- the surrounding try/catch swallows any error of the snapshot step,
        -- so the overall result is `ok` in every case
        (.ok (), .deregisterImage amiDetails.ImageId :: (deleteSnapshotRun env amiDetails).2)

/-- The `for` loop of `amiCleanup`: each image awaited in turn; a thrown
error would abort the loop (none is ever thrown, see `deleteAmi_ok`). -/
def runDeletions (env : Env) (now : Int) (minimumDaysOld : Option Int) :
    List Image → Except String Unit × List AwsCall
  | [] => (.ok (), [])
  | img :: rest =>
    match deleteAmi env now img minimumDaysOld with
    | (.error e, cs) => (.error e, cs)
    | (.ok _, cs) =>
      let r := runDeletions env now minimumDaysOld rest
      (r.1, cs ++ r.2)

/-- `amiCleanup`: merge the options over the defaults by spread, resolve the
unused set, then delete sequentially. -/
def amiCleanup (env : Env) (now : Int) (options : Option AmiCleanupOptionsArg) :
    Except String Unit × List AwsCall :=
  let mergedOptions := spreadMerge defaultAmiCleanupOptions (options.getD emptyOptionsArg)
  match getAmisNotInUse env mergedOptions with
  | (.error e, cs) => (.error e, cs)
  | (.ok amisNotInUse, cs) =>
    let r := runDeletions env now mergedOptions.minimumDaysOld amisNotInUse
    (r.1, cs ++ r.2)

/-- Ascending-by-creation-date relation: vacuously true when either image
lacks a creation date. -/
def dateLeB (a b : Image) : Bool :=
  match a.CreationDate, b.CreationDate with
  | some x, some y => x ≤ y
  | _, _ => true

/-- Whether a request mutates provider state. -/
def isMutating : AwsCall → Bool
  | .deregisterImage _ => true
  | .deleteSnapshot _ => true
  | _ => false

/- ------------------------------------------------------------------ -/
/- Concrete test environments                                         -/
/- ------------------------------------------------------------------ -/

/-- Inventory image with a creation date at time `0`. -/
def imgA : Image := ⟨some "ami-a", some 0, none⟩

/-- An environment whose inventory holds one image created at time `0` and
nothing referenced anywhere. -/
def envC1 : Env :=
  { describeParameters := .ok (some [])
    getParameter := fun _ => .ok none
    describeLaunchTemplates := fun _ => .ok (some [])
    describeLaunchTemplateVersions := fun _ => .ok (some [])
    describeImages := fun _ _ => .ok (some [imgA])
    deregisterImage := fun _ => .ok ()
    deleteSnapshot := fun _ => .ok () }

/-- Undated image listed first in the C2 inventory. -/
def imgU2 : Image := ⟨some "ami-u2", none, none⟩

/-- Dated image (timestamp 9) listed second in the C2 inventory. -/
def imgD9 : Image := ⟨some "ami-d9", some 9, none⟩

/-- Undated image listed third in the C2 inventory. -/
def imgU1 : Image := ⟨some "ami-u1", none, none⟩

/-- Dated image (timestamp 1) listed last in the C2 inventory. -/
def imgD1 : Image := ⟨some "ami-d1", some 1, none⟩

/-- Environment whose inventory interleaves dated and undated images. -/
def envC2 : Env :=
  { describeParameters := .ok (some [])
    getParameter := fun _ => .ok none
    describeLaunchTemplates := fun _ => .ok (some [])
    describeLaunchTemplateVersions := fun _ => .ok (some [])
    describeImages := fun _ _ => .ok (some [imgU2, imgD9, imgU1, imgD1])
    deregisterImage := fun _ => .ok ()
    deleteSnapshot := fun _ => .ok () }

/-- Environment whose inventory holds only the two dated C2 images. -/
def envC2w : Env :=
  { describeParameters := .ok (some [])
    getParameter := fun _ => .ok none
    describeLaunchTemplates := fun _ => .ok (some [])
    describeLaunchTemplateVersions := fun _ => .ok (some [])
    describeImages := fun _ _ => .ok (some [imgD9, imgD1])
    deregisterImage := fun _ => .ok ()
    deleteSnapshot := fun _ => .ok () }

/-- First launch template of the C3 environment. -/
def ltA : LaunchTemplate := ⟨some "lt-a"⟩

/-- Second launch template of the C3 environment. -/
def ltB : LaunchTemplate := ⟨some "lt-b"⟩

/-- Environment with two launch templates: fetching the version data of
`lt-a` fails, fetching that of `lt-b` succeeds. -/
def envC3 : Env :=
  { describeParameters := .ok (some [])
    getParameter := fun _ => .ok none
    describeLaunchTemplates := fun _ => .ok (some [ltA, ltB])
    describeLaunchTemplateVersions := fun id =>
      if id = some "lt-a" then .error "boom" else .ok (some [⟨some ⟨some "ami-b"⟩⟩])
    describeImages := fun _ _ => .ok (some [])
    deregisterImage := fun _ => .ok ()
    deleteSnapshot := fun _ => .ok () }

/-- Environment with one registry parameter that resolves to a value. -/
def envC4 : Env :=
  { describeParameters := .ok (some [⟨some "p1"⟩])
    getParameter := fun _ => .ok (some "ami-x")
    describeLaunchTemplates := fun _ => .ok (some [])
    describeLaunchTemplateVersions := fun _ => .ok (some [])
    describeImages := fun _ _ => .ok (some [])
    deregisterImage := fun _ => .ok ()
    deleteSnapshot := fun _ => .ok () }

/-- Old unused image with one snapshot. -/
def imgOld : Image := ⟨some "ami-old", some 0, some [⟨some ⟨some "snap-1"⟩⟩]⟩

/-- Environment whose inventory holds one old unused image with a snapshot. -/
def envC5 : Env :=
  { describeParameters := .ok (some [])
    getParameter := fun _ => .ok none
    describeLaunchTemplates := fun _ => .ok (some [])
    describeLaunchTemplateVersions := fun _ => .ok (some [])
    describeImages := fun _ _ => .ok (some [imgOld])
    deregisterImage := fun _ => .ok ()
    deleteSnapshot := fun _ => .ok () }

/-- Environment with two registry parameters: resolving `p1` fails,
resolving `p2` succeeds. -/
def envC7 : Env :=
  { describeParameters := .ok (some [⟨some "p1"⟩, ⟨some "p2"⟩])
    getParameter := fun n => if n = some "p1" then .error "boom" else .ok (some "ami-2")
    describeLaunchTemplates := fun _ => .ok (some [])
    describeLaunchTemplateVersions := fun _ => .ok (some [])
    describeImages := fun _ _ => .ok (some [])
    deregisterImage := fun _ => .ok ()
    deleteSnapshot := fun _ => .ok () }

/-- Old image with one snapshot used for the deregistration-failure case. -/
def imgF : Image := ⟨some "ami-f", some 0, some [⟨some ⟨some "snap-f"⟩⟩]⟩

/-- Environment where deregistration always fails. -/
def envC8 : Env :=
  { describeParameters := .ok (some [])
    getParameter := fun _ => .ok none
    describeLaunchTemplates := fun _ => .ok (some [])
    describeLaunchTemplateVersions := fun _ => .ok (some [])
    describeImages := fun _ _ => .ok (some [imgF])
    deregisterImage := fun _ => .error "denied"
    deleteSnapshot := fun _ => .ok () }

/-- Old image with two snapshots. -/
def imgS : Image := ⟨some "ami-s", some 0, some [⟨some ⟨some "snap-1"⟩⟩, ⟨some ⟨some "snap-2"⟩⟩]⟩

/-- Environment where deleting `snap-1` fails and deleting `snap-2`
succeeds. -/
def envC9 : Env :=
  { describeParameters := .ok (some [])
    getParameter := fun _ => .ok none
    describeLaunchTemplates := fun _ => .ok (some [])
    describeLaunchTemplateVersions := fun _ => .ok (some [])
    describeImages := fun _ _ => .ok (some [imgS])
    deregisterImage := fun _ => .ok ()
    deleteSnapshot := fun s => if s = "snap-1" then .error "err" else .ok () }

/-- Environment with a registry parameter resolving to no value and an
inventory image that has no identifier. -/
def envC10 : Env :=
  { describeParameters := .ok (some [⟨some "p"⟩])
    getParameter := fun _ => .ok none
    describeLaunchTemplates := fun _ => .ok (some [])
    describeLaunchTemplateVersions := fun _ => .ok (some [])
    describeImages := fun _ _ => .ok (some [⟨none, some 0, none⟩])
    deregisterImage := fun _ => .ok ()
    deleteSnapshot := fun _ => .ok () }

/- ------------------------------------------------------------------ -/
/- Helper lemmas                                                      -/
/- ------------------------------------------------------------------ -/

theorem promiseAll_error {α : Type} :
    ∀ (l : List (Except String α)) (e : String),
      Except.error e ∈ l → ∃ f, promiseAll l = .error f := by
  intro l
  induction l with
  | nil => intro e h; cases h
  | cons x rest ih =>
    intro e h
    cases x with
    | error f => exact ⟨f, rfl⟩
    | ok a =>
      have hm : Except.error e ∈ rest := by
        rcases List.mem_cons.mp h with h1 | h1
        · cases h1
        · exact h1
      rcases ih e hm with ⟨f, hf⟩
      exact ⟨f, by simp [promiseAll, hf, Except.map]⟩

theorem promiseAll_ok_mem {α : Type} :
    ∀ (l : List (Except String α)) (res : List α) (a : α),
      promiseAll l = .ok res → Except.ok a ∈ l → a ∈ res := by
  intro l
  induction l with
  | nil => intro res a h hm; cases hm
  | cons x rest ih =>
    intro res a h hm
    cases x with
    | error f => simp [promiseAll] at h
    | ok b =>
      rcases hb : promiseAll rest with f | inner
      · simp [promiseAll, hb, Except.map] at h
      · simp only [promiseAll, hb, Except.map] at h
        cases h
        rcases List.mem_cons.mp hm with h1 | h1
        · simp at h1
          simp [h1]
        · exact List.mem_cons_of_mem _ (ih inner a hb h1)

theorem snapshotAttempt_ok (env : Env) (sid : String) : snapshotAttempt env sid = .ok () := by
  unfold snapshotAttempt
  cases env.deleteSnapshot sid <;> rfl

theorem foldl_attempts_ok (env : Env) (l : List String) :
    l.foldl (fun (acc : Except String Unit) sid => acc.bind fun _ => snapshotAttempt env sid)
      (Except.ok ()) = Except.ok () := by
  induction l with
  | nil => rfl
  | cons s rest ih =>
    simp only [List.foldl_cons]
    rw [show (Except.ok () : Except String Unit).bind (fun _ => snapshotAttempt env s) =
          Except.ok () from by rw [snapshotAttempt_ok]; rfl]
    exact ih

theorem deleteSnapshotRun_fst (env : Env) (img : Image) :
    (deleteSnapshotRun env img).1 = .ok () :=
  foldl_attempts_ok env (snapshotIds img)

theorem deleteSnapshotRun_snd (env : Env) (img : Image) :
    (deleteSnapshotRun env img).2 = (snapshotIds img).map (fun sid => .deleteSnapshot sid) := rfl

theorem deleteAmi_ok (env : Env) (now : Int) (img : Image) (minimumDaysOld : Option Int) :
    (deleteAmi env now img minimumDaysOld).1 = .ok () := by
  unfold deleteAmi
  cases img.CreationDate with
  | none => rfl
  | some cd =>
    simp only
    split
    · rfl
    · cases env.deregisterImage img.ImageId <;> rfl

theorem runDeletions_eq (env : Env) (now : Int) (minimumDaysOld : Option Int)
    (imgs : List Image) :
    runDeletions env now minimumDaysOld imgs =
      (.ok (), imgs.flatMap fun i => (deleteAmi env now i minimumDaysOld).2) := by
  induction imgs with
  | nil => rfl
  | cons img rest ih =>
    have h1 := deleteAmi_ok env now img minimumDaysOld
    rcases hd : deleteAmi env now img minimumDaysOld with ⟨r, cs⟩
    rw [hd] at h1
    simp only at h1
    subst h1
    simp [runDeletions, hd, ih]

theorem mem_insRev (x z : Image) (l : List Image) :
    z ∈ insRev x l ↔ z = x ∨ z ∈ l := by
  induction l with
  | nil => simp [insRev]
  | cons y rest ih =>
    unfold insRev
    split
    · simp [ih]
      tauto
    · simp

theorem mem_sortAux (l : List Image) : ∀ (acc : List Image) (z : Image),
    z ∈ sortAux acc l ↔ z ∈ acc ∨ z ∈ l := by
  induction l with
  | nil => intro acc z; simp [sortAux]
  | cons x xs ih =>
    intro acc z
    unfold sortAux
    rw [ih, mem_insRev]
    simp
    tauto

theorem mem_jsSort (l : List Image) (z : Image) : z ∈ jsSort l ↔ z ∈ l := by
  unfold jsSort
  rw [mem_sortAux]
  simp

theorem getAmisReferedInSSM_calls (env : Env) :
    ∀ c ∈ (getAmisReferedInSSM env).2, isMutating c = false := by
  intro c hc
  unfold getAmisReferedInSSM at hc
  cases h : env.describeParameters with
  | error e =>
    rw [h] at hc
    simp at hc
    rw [hc]
    rfl
  | ok psOpt =>
    rw [h] at hc
    simp at hc
    rcases hc with rfl | ⟨p, hp, hc⟩
    · rfl
    · rw [← hc]
      rfl

theorem getAmiInLatestTemplates_calls (env : Env) (options : AmiCleanupOptions) :
    ∀ c ∈ (getAmiInLatestTemplates env options).2, isMutating c = false := by
  intro c hc
  unfold getAmiInLatestTemplates at hc
  cases h : env.describeLaunchTemplates options.launchTemplateNames with
  | error e =>
    rw [h] at hc
    simp at hc
    rw [hc]
    rfl
  | ok ltsOpt =>
    rw [h] at hc
    simp at hc
    rcases hc with rfl | ⟨lt, hlt, hc⟩
    · rfl
    · rw [← hc]
      rfl

theorem getAmisNotInUse_calls (env : Env) (options : AmiCleanupOptions) :
    ∀ c ∈ (getAmisNotInUse env options).2, isMutating c = false := by
  intro c hc
  unfold getAmisNotInUse at hc
  rcases h1 : getAmisReferedInSSM env with ⟨r1, cs1⟩
  rw [h1] at hc
  have hcs1 : ∀ c ∈ cs1, isMutating c = false := by
    have := getAmisReferedInSSM_calls env
    rw [h1] at this
    exact this
  cases r1 with
  | error e => exact hcs1 c hc
  | ok ssmRefs =>
    rcases h2 : getAmiInLatestTemplates env options with ⟨r2, cs2⟩
    rw [h2] at hc
    have hcs2 : ∀ c ∈ cs2, isMutating c = false := by
      have := getAmiInLatestTemplates_calls env options
      rw [h2] at this
      exact this
    cases r2 with
    | error e =>
      simp at hc
      rcases hc with hc | hc
      · exact hcs1 c hc
      · exact hcs2 c hc
    | ok ltRefs =>
      cases h3 : env.describeImages (jsTruthyNat options.maxItems) options.filters with
      | error e =>
        rw [h3] at hc
        simp at hc
        rcases hc with hc | hc | rfl
        · exact hcs1 c hc
        · exact hcs2 c hc
        · rfl
      | ok imagesOpt =>
        rw [h3] at hc
        simp at hc
        rcases hc with hc | hc | rfl
        · exact hcs1 c hc
        · exact hcs2 c hc
        · rfl

theorem dateLeB_eq (a b : Image) (x y : Int)
    (ha : a.CreationDate = some x) (hb : b.CreationDate = some y) :
    dateLeB a b = decide (x ≤ y) := by
  unfold dateLeB
  rw [ha, hb]

theorem imageCompare_eq (a b : Image) (x y : Int)
    (ha : a.CreationDate = some x) (hb : b.CreationDate = some y) :
    imageCompare a b = x - y := by
  unfold imageCompare
  rw [ha, hb]

theorem insRev_pairwise (x : Image) :
    ∀ (acc : List Image), x.CreationDate.isSome → (∀ z ∈ acc, z.CreationDate.isSome) →
      acc.Pairwise (fun a b => dateLeB b a = true) →
      (insRev x acc).Pairwise (fun a b => dateLeB b a = true) := by
  intro acc
  induction acc with
  | nil =>
    intro _ _ _
    simp [insRev]
  | cons y rest ih =>
    intro hx hacc hp
    obtain ⟨dx, hdx⟩ := Option.isSome_iff_exists.mp hx
    obtain ⟨dy, hdy⟩ := Option.isSome_iff_exists.mp (hacc y (List.mem_cons_self y rest))
    rw [List.pairwise_cons] at hp
    obtain ⟨hyrest, hprest⟩ := hp
    have hcmpv : imageCompare y x = dy - dx := imageCompare_eq y x dy dx hdy hdx
    unfold insRev
    by_cases hcmp : imageCompare y x > 0
    · rw [if_pos hcmp, List.pairwise_cons]
      refine ⟨?_, ih hx (fun z hz => hacc z (List.mem_cons_of_mem _ hz)) hprest⟩
      intro z hz
      rcases (mem_insRev x z rest).mp hz with rfl | hzr
      · rw [hcmpv] at hcmp
        rw [dateLeB_eq z y dx dy hdx hdy]
        exact decide_eq_true (by omega)
      · exact hyrest z hzr
    · rw [if_neg hcmp, List.pairwise_cons]
      rw [hcmpv] at hcmp
      have hyx : dy ≤ dx := by omega
      refine ⟨?_, List.pairwise_cons.mpr ⟨hyrest, hprest⟩⟩
      intro z hz
      rcases List.mem_cons.mp hz with rfl | hzr
      · rw [dateLeB_eq z x dy dx hdy hdx]
        exact decide_eq_true hyx
      · obtain ⟨dz, hdz⟩ := Option.isSome_iff_exists.mp (hacc z (List.mem_cons_of_mem _ hzr))
        have h1 := hyrest z hzr
        rw [dateLeB_eq z y dz dy hdz hdy] at h1
        rw [dateLeB_eq z x dz dx hdz hdx]
        exact decide_eq_true (le_trans (of_decide_eq_true h1) hyx)

theorem sortAux_pairwise :
    ∀ (l acc : List Image), (∀ z ∈ l, z.CreationDate.isSome) →
      (∀ z ∈ acc, z.CreationDate.isSome) →
      acc.Pairwise (fun a b => dateLeB b a = true) →
      (sortAux acc l).Pairwise (fun a b => dateLeB a b = true) := by
  intro l
  induction l with
  | nil =>
    intro acc _ _ hp
    unfold sortAux
    exact List.pairwise_reverse.mpr hp
  | cons x xs ih =>
    intro acc hl hacc hp
    unfold sortAux
    apply ih
    · intro z hz
      exact hl z (List.mem_cons_of_mem _ hz)
    · intro z hz
      rcases (mem_insRev x z acc).mp hz with rfl | hzacc
      · exact hl z (List.mem_cons_self _ _)
      · exact hacc z hzacc
    · exact insRev_pairwise x acc (hl x (List.mem_cons_self _ _)) hacc hp

theorem jsSort_pairwise (l : List Image) (h : ∀ z ∈ l, z.CreationDate.isSome) :
    (jsSort l).Pairwise (fun a b => dateLeB a b = true) :=
  sortAux_pairwise l [] h (by intro z hz; cases hz) List.Pairwise.nil

theorem deleteAmi_trace_nodate (env : Env) (now : Int) (img : Image) (m : Option Int)
    (hcd : img.CreationDate = none) : (deleteAmi env now img m).2 = [] := by
  unfold deleteAmi
  rw [hcd]

theorem deleteAmi_trace_young (env : Env) (now : Int) (img : Image) (d cd : Int)
    (hcd : img.CreationDate = some cd) (hy : cd > now - d * msPerDay) :
    (deleteAmi env now img (some d)).2 = [] := by
  unfold deleteAmi
  rw [hcd]
  simp [hy]

theorem deleteAmi_trace_old (env : Env) (now : Int) (img : Image) (d cd : Int)
    (hcd : img.CreationDate = some cd) (hy : ¬(cd > now - d * msPerDay)) :
    ∃ rest, (deleteAmi env now img (some d)).2 = .deregisterImage img.ImageId :: rest ∧
      ∀ c ∈ rest, ∃ s, c = AwsCall.deleteSnapshot s := by
  have hfalse : decide (cd > now - d * msPerDay) = false := by
    simp [hy]
  unfold deleteAmi
  rw [hcd]
  simp only [hfalse, Bool.false_eq_true, if_false]
  cases env.deregisterImage img.ImageId with
  | error e => exact ⟨[], rfl, by simp⟩
  | ok u =>
    refine ⟨(deleteSnapshotRun env img).2, rfl, ?_⟩
    intro c hc
    rw [deleteSnapshotRun_snd] at hc
    rcases List.mem_map.mp hc with ⟨s, hs, rfl⟩
    exact ⟨s, rfl⟩

theorem deregister_mem_deleteAmi (env : Env) (now : Int) (img : Image) (d : Int)
    (iid : Option String) :
    AwsCall.deregisterImage iid ∈ (deleteAmi env now img (some d)).2 ↔
      (img.ImageId = iid ∧ ∃ cd, img.CreationDate = some cd ∧ cd ≤ now - d * msPerDay) := by
  cases hcd : img.CreationDate with
  | none =>
    rw [deleteAmi_trace_nodate env now img (some d) hcd]
    simp
  | some cd =>
    by_cases hy : cd > now - d * msPerDay
    · rw [deleteAmi_trace_young env now img d cd hcd hy]
      simp only [List.not_mem_nil, false_iff, not_and]
      intro _
      rintro ⟨cd2, hcd2, hle⟩
      cases hcd2
      omega
    · rcases deleteAmi_trace_old env now img d cd hcd hy with ⟨rest, htr, hrest⟩
      rw [htr]
      constructor
      · intro hmem
        rcases List.mem_cons.mp hmem with h1 | h1
        · cases h1
          exact ⟨rfl, cd, rfl, by omega⟩
        · rcases hrest _ h1 with ⟨s, hs⟩
          cases hs
      · intro ⟨hid, _⟩
        rw [hid]
        exact List.mem_cons_self _ _

theorem getAmisNotInUse_ok (env : Env) (options : AmiCleanupOptions)
    (ssmRefs ltRefs : List (Option String)) (imagesOpt : Option (List Image))
    (hssm : (getAmisReferedInSSM env).1 = .ok ssmRefs)
    (hlt : (getAmiInLatestTemplates env options).1 = .ok ltRefs)
    (himg : env.describeImages (jsTruthyNat options.maxItems) options.filters = .ok imagesOpt) :
    (getAmisNotInUse env options).1 =
      .ok ((jsSort (imagesOpt.getD [])).filter (notInUseP ssmRefs ltRefs)) := by
  unfold getAmisNotInUse
  rcases h1 : getAmisReferedInSSM env with ⟨r1, cs1⟩
  rw [h1] at hssm
  simp only at hssm
  subst hssm
  rcases h2 : getAmiInLatestTemplates env options with ⟨r2, cs2⟩
  rw [h2] at hlt
  simp only at hlt
  subst hlt
  rw [himg]

theorem imageCompare_none (a b : Image)
    (h : a.CreationDate = none ∨ b.CreationDate = none) : imageCompare a b = 0 := by
  unfold imageCompare
  rcases h with h | h
  · rw [h]
  · rw [h]
    cases a.CreationDate <;> rfl

theorem amiCleanup_trace (env : Env) (now : Int) (arg : AmiCleanupOptionsArg)
    (amis : List Image)
    (h : (getAmisNotInUse env (spreadMerge defaultAmiCleanupOptions arg)).1 = .ok amis) :
    (amiCleanup env now (some arg)).2 =
      (getAmisNotInUse env (spreadMerge defaultAmiCleanupOptions arg)).2 ++
        amis.flatMap (fun i =>
          (deleteAmi env now i (spreadMerge defaultAmiCleanupOptions arg).minimumDaysOld).2) := by
  unfold amiCleanup
  rcases hg : getAmisNotInUse env (spreadMerge defaultAmiCleanupOptions arg) with ⟨r, cs⟩
  rw [hg] at h
  simp only at h
  subst h
  simp only [Option.getD_some]
  rw [hg]
  simp [runDeletions_eq]

/- ------------------------------------------------------------------ -/
/- Claims                                                             -/
/- ------------------------------------------------------------------ -/

/-- C1 (amended): for every image in the fetched inventory, the cleanup run
issues a deregistration call for it iff its identifier is `includes`-absent
from both reference lists, its creation date is present, and that date is at
most `now − minimumDaysOld` days (age **at least** the threshold — the code
deletes at the exact boundary as well). -/
theorem c1_deregister_iff (env : Env) (now daysOld : Int) (arg : AmiCleanupOptionsArg)
    (ssmRefs ltRefs : List (Option String)) (images : List Image) (img : Image)
    (hmin : (spreadMerge defaultAmiCleanupOptions arg).minimumDaysOld = some daysOld)
    (hssm : (getAmisReferedInSSM env).1 = .ok ssmRefs)
    (hlt : (getAmiInLatestTemplates env (spreadMerge defaultAmiCleanupOptions arg)).1 = .ok ltRefs)
    (himg : env.describeImages (jsTruthyNat (spreadMerge defaultAmiCleanupOptions arg).maxItems)
        (spreadMerge defaultAmiCleanupOptions arg).filters = .ok (some images))
    (hmem : img ∈ images)
    (hids : (images.map Image.ImageId).Nodup) :
    AwsCall.deregisterImage img.ImageId ∈ (amiCleanup env now (some arg)).2 ↔
      (ssmRefs.contains img.ImageId = false ∧ ltRefs.contains img.ImageId = false ∧
        ∃ cd, img.CreationDate = some cd ∧ cd ≤ now - daysOld * msPerDay) := by
  have hres := getAmisNotInUse_ok env (spreadMerge defaultAmiCleanupOptions arg)
    ssmRefs ltRefs (some images) hssm hlt himg
  rw [Option.getD_some] at hres
  rw [amiCleanup_trace env now arg _ hres, List.mem_append]
  have hpre : AwsCall.deregisterImage img.ImageId ∉
      (getAmisNotInUse env (spreadMerge defaultAmiCleanupOptions arg)).2 := by
    intro hmemc
    have := getAmisNotInUse_calls env (spreadMerge defaultAmiCleanupOptions arg) _ hmemc
    simp [isMutating] at this
  rw [hmin]
  constructor
  · rintro (hc | hc)
    · exact absurd hc hpre
    · rcases List.mem_flatMap.mp hc with ⟨img2, himg2, hcall⟩
      rcases (deregister_mem_deleteAmi env now img2 daysOld img.ImageId).mp hcall with
        ⟨hid2, cd, hcd2, hle⟩
      rcases List.mem_filter.mp himg2 with ⟨hsorted, hfilt⟩
      have himg2mem : img2 ∈ images := (mem_jsSort images img2).mp hsorted
      have heq : img2 = img := List.inj_on_of_nodup_map hids himg2mem hmem hid2
      subst heq
      simp only [notInUseP, Bool.and_eq_true, Bool.not_eq_true'] at hfilt
      exact ⟨hfilt.1, hfilt.2, cd, hcd2, hle⟩
  · rintro ⟨hs, hl2, cd, hcd, hle⟩
    right
    apply List.mem_flatMap.mpr
    refine ⟨img, ?_, ?_⟩
    · apply List.mem_filter.mpr
      refine ⟨(mem_jsSort images img).mpr hmem, ?_⟩
      simp only [notInUseP, Bool.and_eq_true, Bool.not_eq_true']
      exact ⟨hs, hl2⟩
    · exact (deregister_mem_deleteAmi env now img daysOld img.ImageId).mpr ⟨rfl, cd, hcd, hle⟩

/-- Witness for `c1_deregister_iff`: in `envC1`, with the default threshold of
30 days and `now` at day 100, the image created at time 0 is deregistered. -/
theorem c1_deregister_iff_witness :
    AwsCall.deregisterImage imgA.ImageId ∈ (amiCleanup envC1 (100 * msPerDay) (some emptyOptionsArg)).2 :=
  (c1_deregister_iff envC1 (100 * msPerDay) 30 emptyOptionsArg [] [] [imgA] imgA
      rfl rfl rfl rfl (by decide) (by decide)).mpr
    ⟨rfl, rfl, 0, rfl, by decide⟩

/-- C1 counterexample: an image whose age is exactly `minimumDaysOld` days
(creation at time 0, evaluation at day 30) is deregistered by the run even
though its age does not strictly exceed 30 days. -/
theorem c1_counterexample :
    AwsCall.deregisterImage (some "ami-a") ∈ (amiCleanup envC1 (30 * msPerDay) none).2 ∧
      ¬(30 * msPerDay - 0 > 30 * (msPerDay : Int)) := by
  constructor
  · decide
  · decide

/-- C2 (amended): the sort comparator returns 0 for any pair in which either
image lacks a creation date; the not-in-use filter preserves the sorted
order (the candidate sequence is a sublist of the sorted inventory); and the
candidate sequence is sorted ascending by creation date **provided every
fetched image carries a creation date** (with undated images present the
inconsistent comparator can leave dated images out of order). -/
theorem c2_sorted (env : Env) (options : AmiCleanupOptions)
    (ssmRefs ltRefs : List (Option String)) (images r : List Image)
    (hssm : (getAmisReferedInSSM env).1 = .ok ssmRefs)
    (hlt : (getAmiInLatestTemplates env options).1 = .ok ltRefs)
    (himg : env.describeImages (jsTruthyNat options.maxItems) options.filters = .ok (some images))
    (hdated : ∀ i ∈ images, i.CreationDate.isSome)
    (hr : (getAmisNotInUse env options).1 = .ok r) :
    (∀ a b : Image, a.CreationDate = none ∨ b.CreationDate = none → imageCompare a b = 0) ∧
      r.Sublist (jsSort images) ∧ r.Pairwise (fun a b => dateLeB a b = true) := by
  have hres := getAmisNotInUse_ok env options ssmRefs ltRefs (some images) hssm hlt himg
  rw [Option.getD_some] at hres
  rw [hres] at hr
  have hr2 : r = (jsSort images).filter (notInUseP ssmRefs ltRefs) := by
    cases hr
    rfl
  subst hr2
  refine ⟨imageCompare_none, List.filter_sublist _, ?_⟩
  exact List.Pairwise.sublist (List.filter_sublist _) (jsSort_pairwise images hdated)

/-- Witness for `c2_sorted`: in `envC2w` the two dated images come back
oldest first. -/
theorem c2_sorted_witness :
    ([imgD1, imgD9].Sublist (jsSort [imgD9, imgD1])) ∧
      [imgD1, imgD9].Pairwise (fun a b => dateLeB a b = true) :=
  (c2_sorted envC2w defaultAmiCleanupOptions [] [] [imgD9, imgD1] [imgD1, imgD9]
      rfl rfl rfl (by decide) rfl).2

/-- C2 counterexample: with inventory `[undated, date 9, undated, date 1]`
and nothing referenced, the candidate sequence handed to the deletion
executor is the unchanged inventory — every comparison the sort performs
returns 0 — so it is **not** sorted ascending by creation date (the image
dated 9 precedes the image dated 1). -/
theorem c2_counterexample :
    (getAmisNotInUse envC2 defaultAmiCleanupOptions).1 = .ok [imgU2, imgD9, imgU1, imgD1] ∧
      ¬ List.Pairwise (fun a b => dateLeB a b = true) [imgU2, imgD9, imgU1, imgD1] := by
  constructor
  · rfl
  · decide

/-- C3 (amended): a failure fetching one template's version data aborts the
whole launch-template source — `Promise.all` rejects, the collected
references of the other templates are discarded, and the error propagates
exactly like a failure of the list-templates call. -/
theorem c3_template_failure_propagates (env : Env) (options : AmiCleanupOptions)
    (lts : List LaunchTemplate) (lt : LaunchTemplate) (e : String)
    (hlist : env.describeLaunchTemplates options.launchTemplateNames = .ok (some lts))
    (hmem : lt ∈ lts)
    (hfail : env.describeLaunchTemplateVersions lt.LaunchTemplateId = .error e) :
    ((getAmiInLatestTemplates env options).1).isOk = false := by
  unfold getAmiInLatestTemplates
  rw [hlist]
  simp only [Option.getD_some]
  have hmem2 : Except.error e ∈ lts.map (fun lt2 =>
      (env.describeLaunchTemplateVersions lt2.LaunchTemplateId).map fun vsOpt =>
        vsOpt.map fun vs => vs.map fun tv => tv.LaunchTemplateData.bind fun d => d.ImageId) := by
    apply List.mem_map.mpr
    refine ⟨lt, hmem, ?_⟩
    rw [hfail]
    rfl
  rcases promiseAll_error _ e hmem2 with ⟨f, hf⟩
  rw [hf]
  rfl

/-- Witness for `c3_template_failure_propagates` on `envC3`. -/
theorem c3_template_failure_propagates_witness :
    ((getAmiInLatestTemplates envC3 defaultAmiCleanupOptions).1).isOk = false :=
  c3_template_failure_propagates envC3 defaultAmiCleanupOptions [ltA, ltB] ltA "boom"
    rfl (by decide) rfl

/-- C3 counterexample: in `envC3` only `lt-a`'s version fetch fails and
`lt-b`'s succeeds with a reference, yet the launch-template source returns
the error — the reference from `lt-b` is not contributed. -/
theorem c3_counterexample :
    envC3.describeLaunchTemplateVersions ltB.LaunchTemplateId = .ok (some [⟨some ⟨some "ami-b"⟩⟩]) ∧
      (getAmiInLatestTemplates envC3 defaultAmiCleanupOptions).1 = .error "boom" := by
  constructor
  · rfl
  · rfl

/-- C4 (amended): the lambda's options carry no parameter-name configuration
at all; for every environment the parameter source's first issued request is
the `DescribeParameters` registry call (filter: name contains `ami-id`). -/
theorem c4_always_queries_registry (env : Env) :
    (getAmisReferedInSSM env).2.head? = some .describeParameters := by
  unfold getAmisReferedInSSM
  cases env.describeParameters <;> rfl

/-- C4 counterexample: with an options object that configures no parameter
names (none can be configured), the parameter source still issues the
registry call and returns a non-empty reference list. -/
theorem c4_counterexample :
    (getAmisReferedInSSM envC4).2 = [.describeParameters, .getParameter (some "p1")] ∧
      (getAmisReferedInSSM envC4).1 = .ok [some "ami-x"] ∧
      ([AwsCall.describeParameters, .getParameter (some "p1")] : List AwsCall) ≠ [] ∧
      ([some "ami-x"] : List (Option String)) ≠ [] := by
  refine ⟨rfl, rfl, by decide, by decide⟩

/-- C5 (code bug): the options interface of the lambda has no `dryRun`
field, so no run can be configured as a dry run; at the failing input (the
module config sets `dryRun = true`, inventory holds one unused 40-day-old
image) the run still issues the deregistration and the snapshot deletion. -/
theorem c5_dry_run_not_enforced :
    AwsCall.deregisterImage (some "ami-old") ∈ (amiCleanup envC5 (40 * msPerDay) none).2 ∧
      AwsCall.deleteSnapshot "snap-1" ∈ (amiCleanup envC5 (40 * msPerDay) none).2 := by
  constructor
  · decide
  · decide

/-- C6 (amended): the effective configuration equals the defaults overridden
field-by-field by the properties **present** on the caller's object — a
property present with value `undefined` also overrides its default (spread
semantics); only an absent property keeps the default; `minimumDaysOld`
defaults to 30 and the filter defaults to state=available,
image-type=machine. -/
theorem c6_merge (o : AmiCleanupOptionsArg) :
    spreadMerge defaultAmiCleanupOptions o =
      { minimumDaysOld := o.minimumDaysOld.getD (some 30)
        maxItems := o.maxItems.getD none
        filters := o.filters.getD
          (some [⟨some "state", some ["available"]⟩, ⟨some "image-type", some ["machine"]⟩])
        launchTemplateNames := o.launchTemplateNames.getD none } := rfl

/-- C6 counterexample: a caller options object whose `minimumDaysOld`
property is present with value `undefined` yields an effective
`minimumDaysOld` of `undefined`, not the default 30. -/
theorem c6_counterexample :
    (spreadMerge defaultAmiCleanupOptions ⟨some none, none, none, none⟩).minimumDaysOld = none ∧
      (none : Option Int) ≠ some 30 := by
  refine ⟨rfl, by decide⟩

/-- C7 (amended): a failure resolving one registry parameter's value aborts
the whole parameter source — `Promise.all` rejects and the error
propagates; the remaining parameters' references are discarded. -/
theorem c7_parameter_failure_propagates (env : Env)
    (ps : List SsmParameter) (p : SsmParameter) (e : String)
    (hlist : env.describeParameters = .ok (some ps)) (hmem : p ∈ ps)
    (hfail : env.getParameter p.Name = .error e) :
    ((getAmisReferedInSSM env).1).isOk = false := by
  unfold getAmisReferedInSSM
  rw [hlist]
  simp only [Option.getD_some]
  have hmem2 : Except.error e ∈ ps.map (fun p2 => env.getParameter p2.Name) :=
    List.mem_map.mpr ⟨p, hmem, hfail⟩
  rcases promiseAll_error _ e hmem2 with ⟨f, hf⟩
  rw [hf]
  rfl

/-- Witness for `c7_parameter_failure_propagates` on `envC7`. -/
theorem c7_parameter_failure_propagates_witness :
    ((getAmisReferedInSSM envC7).1).isOk = false :=
  c7_parameter_failure_propagates envC7 [⟨some "p1"⟩, ⟨some "p2"⟩] ⟨some "p1"⟩ "boom"
    rfl (by decide) rfl

/-- C7 counterexample: in `envC7` only `p1` fails to resolve while `p2`
resolves to a reference, yet the parameter source returns the error — the
run is aborted rather than continuing with `p2`'s reference. -/
theorem c7_counterexample :
    envC7.getParameter (some "p2") = .ok (some "ami-2") ∧
      (getAmisReferedInSSM envC7).1 = .error "boom" := by
  constructor
  · rfl
  · rfl

/-- C8 (confirmed): `deleteAmi` always completes without raising; when the
deregistration call fails, no snapshot-deletion request is issued for that
image; and the deletion loop processes every image of the batch (the full
trace is the concatenation of every image's own trace). -/
theorem c8_delete_ami_isolation (env : Env) (now : Int) (m : Option Int) (img : Image) :
    (deleteAmi env now img m).1 = .ok () ∧
      ((∃ e, env.deregisterImage img.ImageId = .error e) →
        ∀ s, AwsCall.deleteSnapshot s ∉ (deleteAmi env now img m).2) ∧
      (∀ imgs : List Image, runDeletions env now m imgs =
        (.ok (), imgs.flatMap fun i => (deleteAmi env now i m).2)) := by
  refine ⟨deleteAmi_ok env now img m, ?_, fun imgs => runDeletions_eq env now m imgs⟩
  rintro ⟨e, he⟩ s hmem
  unfold deleteAmi at hmem
  cases hcd : img.CreationDate with
  | none =>
    rw [hcd] at hmem
    cases hmem
  | some cd =>
    rw [hcd] at hmem
    simp only at hmem
    cases hb : (match m with
        | some d => decide (cd > now - d * msPerDay)
        | none => false) with
    | true =>
      rw [hb] at hmem
      simp at hmem
    | false =>
      rw [hb] at hmem
      simp only [Bool.false_eq_true, if_false] at hmem
      rw [he] at hmem
      simp at hmem

/-- Witness for `c8_delete_ami_isolation`: in `envC8` deregistration fails
and no snapshot deletion is issued for the image's snapshot. -/
theorem c8_delete_ami_isolation_witness :
    (deleteAmi envC8 (40 * msPerDay) imgF (some 30)).1 = .ok () ∧
      AwsCall.deleteSnapshot "snap-f" ∉ (deleteAmi envC8 (40 * msPerDay) imgF (some 30)).2 := by
  obtain ⟨h1, h2, h3⟩ := c8_delete_ami_isolation envC8 (40 * msPerDay) (some 30) imgF
  exact ⟨h1, h2 ⟨"denied", rfl⟩ "snap-f"⟩

/-- C9 (confirmed): even when some snapshot deletion fails, every snapshot
id of the image's block-device mapping receives its own deletion request,
the snapshot step reports success, and the deletion loop never returns an
error. -/
theorem c9_snapshot_isolation (env : Env) (img : Image)
    (hfail : ∃ sid ∈ snapshotIds img, ∃ e, env.deleteSnapshot sid = .error e) :
    (∀ sid ∈ snapshotIds img, AwsCall.deleteSnapshot sid ∈ (deleteSnapshotRun env img).2) ∧
      (deleteSnapshotRun env img).1 = .ok () ∧
      (∀ (now : Int) (m : Option Int) (imgs : List Image),
        (runDeletions env now m imgs).1 = .ok ()) := by
  refine ⟨?_, deleteSnapshotRun_fst env img, ?_⟩
  · intro sid hs
    rw [deleteSnapshotRun_snd]
    exact List.mem_map.mpr ⟨sid, hs, rfl⟩
  · intro now m imgs
    rw [runDeletions_eq]

/-- Witness for `c9_snapshot_isolation`: in `envC9` deleting `snap-1` fails
yet `snap-2` still receives a deletion request and nothing raises. -/
theorem c9_snapshot_isolation_witness :
    AwsCall.deleteSnapshot "snap-2" ∈ (deleteSnapshotRun envC9 imgS).2 ∧
      (deleteSnapshotRun envC9 imgS).1 = .ok () := by
  obtain ⟨h1, h2, h3⟩ := c9_snapshot_isolation envC9 imgS ⟨"snap-1", by decide, "err", rfl⟩
  exact ⟨h1 "snap-2" (by decide), h2⟩

/-- C10 (confirmed): the reference lists may contain `undefined` — a registry
parameter resolving to no value contributes a `none` entry, a launch-template
default version whose launch data carries no image id contributes a `none`
entry — and whenever a reference list contains `none`, every inventory image
whose own identifier is absent tests as in-use and is excluded from the
unused set. -/
theorem c10_undefined_refs :
    (∀ (env : Env) (ps : List SsmParameter) (p : SsmParameter) (refs : List (Option String)),
        env.describeParameters = .ok (some ps) → p ∈ ps → env.getParameter p.Name = .ok none →
        (getAmisReferedInSSM env).1 = .ok refs → none ∈ refs) ∧
      (∀ (env : Env) (options : AmiCleanupOptions) (lts : List LaunchTemplate)
          (lt : LaunchTemplate) (vs : List LaunchTemplateVersion) (tv : LaunchTemplateVersion)
          (refs : List (Option String)),
        env.describeLaunchTemplates options.launchTemplateNames = .ok (some lts) → lt ∈ lts →
        env.describeLaunchTemplateVersions lt.LaunchTemplateId = .ok (some vs) → tv ∈ vs →
        tv.LaunchTemplateData.bind LaunchTemplateData.ImageId = none →
        (getAmiInLatestTemplates env options).1 = .ok refs → none ∈ refs) ∧
      (∀ (env : Env) (options : AmiCleanupOptions) (ssmRefs ltRefs : List (Option String))
          (r : List Image) (img : Image),
        (getAmisReferedInSSM env).1 = .ok ssmRefs →
        (getAmiInLatestTemplates env options).1 = .ok ltRefs →
        (none ∈ ssmRefs ∨ none ∈ ltRefs) →
        (getAmisNotInUse env options).1 = .ok r → img.ImageId = none → img ∉ r) := by
  refine ⟨?_, ?_, ?_⟩
  · intro env ps p refs hlist hmem hval hres
    unfold getAmisReferedInSSM at hres
    rw [hlist] at hres
    simp only [Option.getD_some] at hres
    have hmem2 : Except.ok (none : Option String) ∈ ps.map (fun p2 => env.getParameter p2.Name) :=
      List.mem_map.mpr ⟨p, hmem, hval⟩
    exact promiseAll_ok_mem _ refs none hres hmem2
  · intro env options lts lt vs tv refs hlist hmem hvers htv hnone hres
    unfold getAmiInLatestTemplates at hres
    rw [hlist] at hres
    simp only [Option.getD_some] at hres
    rcases hp : promiseAll (lts.map (fun lt2 =>
        (env.describeLaunchTemplateVersions lt2.LaunchTemplateId).map fun vsOpt =>
          vsOpt.map fun vs2 => vs2.map fun tv2 => tv2.LaunchTemplateData.bind fun d => d.ImageId))
      with f | inner
    · rw [hp] at hres
      cases hres
    · rw [hp] at hres
      simp only [Except.map] at hres
      cases hres
      have hmem2 : Except.ok (some (vs.map fun tv2 => tv2.LaunchTemplateData.bind fun d => d.ImageId)) ∈
          lts.map (fun lt2 =>
            (env.describeLaunchTemplateVersions lt2.LaunchTemplateId).map fun vsOpt =>
              vsOpt.map fun vs2 => vs2.map fun tv2 => tv2.LaunchTemplateData.bind fun d => d.ImageId) := by
        apply List.mem_map.mpr
        refine ⟨lt, hmem, ?_⟩
        rw [hvers]
        rfl
      have hin : (some (vs.map fun tv2 => tv2.LaunchTemplateData.bind fun d => d.ImageId)) ∈ inner :=
        promiseAll_ok_mem _ inner _ hp hmem2
      apply List.mem_flatMap.mpr
      refine ⟨some (vs.map fun tv2 => tv2.LaunchTemplateData.bind fun d => d.ImageId), hin, ?_⟩
      simp only
      apply List.mem_map.mpr
      refine ⟨tv, htv, ?_⟩
      exact hnone
  · intro env options ssmRefs ltRefs r img hssm hlt hnone hr hid
    cases h3 : env.describeImages (jsTruthyNat options.maxItems) options.filters with
    | error e =>
      unfold getAmisNotInUse at hr
      rcases h1 : getAmisReferedInSSM env with ⟨r1, cs1⟩
      rw [h1] at hssm hr
      simp only at hssm
      subst hssm
      rcases h2 : getAmiInLatestTemplates env options with ⟨r2, cs2⟩
      rw [h2] at hlt hr
      simp only at hlt
      subst hlt
      rw [h3] at hr
      simp only at hr
      cases hr
    | ok imagesOpt =>
      have hres := getAmisNotInUse_ok env options ssmRefs ltRefs imagesOpt hssm hlt h3
      rw [hres] at hr
      have hr2 : r = (jsSort (imagesOpt.getD [])).filter (notInUseP ssmRefs ltRefs) := by
        cases hr
        rfl
      subst hr2
      intro hmem
      rcases List.mem_filter.mp hmem with ⟨_, hfilt⟩
      simp only [notInUseP, Bool.and_eq_true, Bool.not_eq_true'] at hfilt
      rw [hid] at hfilt
      rcases hnone with hn | hn
      · have hc : ssmRefs.contains none = true := List.elem_eq_true_of_mem hn
        rw [hc] at hfilt
        exact absurd hfilt.1 (by decide)
      · have hc : ltRefs.contains none = true := List.elem_eq_true_of_mem hn
        rw [hc] at hfilt
        exact absurd hfilt.2 (by decide)

/-- Witness for `c10_undefined_refs`: in `envC10` the sole parameter resolves
to no value, so the parameter reference list is `[none]`, and the inventory
image lacking an identifier is excluded from the unused set, which comes out
empty. -/
theorem c10_undefined_refs_witness :
    (none ∈ ([none] : List (Option String))) ∧
      (⟨none, some 0, none⟩ : Image) ∉ ([] : List Image) :=
  ⟨c10_undefined_refs.1 envC10 [⟨some "p"⟩] ⟨some "p"⟩ [none] rfl (by decide) rfl rfl,
   c10_undefined_refs.2.2 envC10 defaultAmiCleanupOptions [none] [] [] ⟨none, some 0, none⟩
     rfl rfl (Or.inl (by decide)) rfl rfl⟩

end AmiHousekeeper
